import Mathlib

/-!
# Verification of the multi-agent CSM orchestration framework

A shallow embedding, in Lean 4, of the pure/decidable cores of the
multi-agent retrieval/VLM orchestration repository:

* `distribute_images_to_agents` (src/utils/helper_workflow.py, and the
  identical method copies in src/workflow/cosmo_workflow.py and
  src/workflow/cosmo_backup_fix.py);
* the selective sub-agent orchestrator `CustomSelectiveAgent10`
  (src/custom_workflow.py);
* the task-plan parsing step and the VLM/aggregation stages of
  `CosmoFlowAgent` (src/workflow/cosmo_workflow.py and
  src/workflow/cosmo_backup_fix.py), with the LLM calls abstracted as
  oracle functions;
* the fallback aggregator `_fallback_aggregation`
  (src/workflow/cosmo_workflow.py);
* `VectorDatabaseTool.query_database` (src/tools/tools.py), with the
  embedding model and the vector index abstracted as fallible oracles;
* the two API-key managers (src/agent/load_agent.py and
  src/multi_agent/vlm/load_model.py);
* the natural-sort key and PNG collection logic of src/merge_pdf.py.

Python exceptions are modelled with `Except`; Python `int` as `Nat`
(all quantities involved are non-negative); Python `float` distances and
scores as `ℚ` (only the exact formula `1 - distance` is at stake, which
is exact in both models for the inputs considered); Python strings as
`String` or `List Char` (the latter where kernel evaluation is needed).
-/

deriving instance DecidableEq for Except

namespace MultiAgentCSM

/-- The kinds of Python exception raised by the modelled code paths. -/
inductive PyErr where
  | valueError (msg : String)
  | zeroDivisionError
  | indexError
  | fileNotFoundError (msg : String)
deriving DecidableEq, Repr

/-- Rendering of an exception as `str(e)`, used by the top-level
`except Exception as e` handlers of the workflow classes. -/
def PyErr.message : PyErr → String
  | .valueError msg => msg
  | .zeroDivisionError => "division by zero"
  | .indexError => "list index out of range"
  | .fileNotFoundError msg => msg

/-! ## Image distribution (src/utils/helper_workflow.py, lines 18-44)

`distribute_images_to_agents` computes `base_batch_size = num_images //
num_agents` and `remainder = num_images % num_agents`, then slices
`all_images[start_idx:end_idx]` for `i in range(num_agents)` with
`batch_size = base_batch_size + (1 if i < remainder else 0)`.
The same code appears verbatim as `_distribute_images_to_agents` in
src/workflow/cosmo_workflow.py (lines 409-435) and
src/workflow/cosmo_backup_fix.py. -/

/-- The list of `batch_size` values produced by the loop:
`base_batch_size + (1 if i < remainder else 0)` for `i in range(num_agents)`. -/
def batchSizes (num_images num_agents : Nat) : List Nat :=
  (List.range num_agents).map (fun i =>
    num_images / num_agents + if i < num_images % num_agents then 1 else 0)

/-- The successive slices `all_images[start_idx:end_idx]` taken by the loop;
`start_idx` advances by the consumed batch size, so slicing the original list
at running offsets is the same as take/drop on the remaining suffix. -/
def takeBatches {α : Type} : List α → List Nat → List (List α)
  | _, [] => []
  | imgs, s :: rest => imgs.take s :: takeBatches (imgs.drop s) rest

/-- `distribute_images_to_agents(all_images, vlm_agents)`.  With an empty
agent list, `num_images // num_agents` raises `ZeroDivisionError` in Python;
that raise is modelled by the explicit guard. -/
def distribute_images_to_agents {α β : Type} (all_images : List α)
    (vlm_agents : List β) : Except PyErr (List (List α)) :=
  let num_agents := vlm_agents.length
  let num_images := all_images.length
  if num_agents = 0 then .error .zeroDivisionError
  else .ok (takeBatches all_images (batchSizes num_images num_agents))

/-! ## Selective sub-agent orchestrator (src/custom_workflow.py)

`CustomSelectiveAgent10._run_async_impl` reads `sub_agent_plan` from session
state, parses it if it is a string, builds `task_map`, validates it, and then
starts one execution branch per task entry whose agent name is found among the
configured sub-agents. -/

/-- One entry of a well-formed TaskPlan: a JSON object with `"agent"` and
`"query"` keys.  (An entry missing one of the two keys is dropped from
`task_map` by the dict comprehension at line 71 but makes the branch loop at
line 93 raise `KeyError`; the claims below only quantify over valid plans, in
which every entry carries both keys.) -/
structure Task where
  agent : String
  query : String
deriving DecidableEq, Repr

/-- The stored `sub_agent_plan` value (or, for `CosmoFlowAgent`, the cleaned
main-agent response text): either data `json.loads` accepts as a task list, or
text it rejects, in which case `err` is the text of the `json.JSONDecodeError`. -/
inductive PlanInput where
  | parsed (tasks : List Task)
  | unparsable (err : String)

/-- `next((a for a in self.sub_agents if a.name == agent_name), None)`
(src/custom_workflow.py line 95), restricted to agent names. -/
def findAgentByName (names : List String) (agent_name : String) : Option String :=
  names.find? (fun a => a == agent_name)

/-- `CustomSelectiveAgent10._run_async_impl`, returning the ordered list of
`(agent name, query)` execution branches it starts (one per surviving task
entry, in task order), or the `ValueError` it raises. -/
def runSelective (plan : PlanInput) (sub_agent_names : List String) :
    Except PyErr (List (String × String)) :=
  match plan with
  | .unparsable err =>
      -- `raise ValueError(f"Invalid JSON in sub_agent_plan: {e}")`
      .error (.valueError ("Invalid JSON in sub_agent_plan: " ++ err))
  | .parsed task_list =>
      -- `task_map = {task["agent"]: task["query"] for task in task_list ...}`:
      -- for a valid plan, task_map is empty iff task_list is empty.
      if task_list.isEmpty then .error (.valueError "No valid sub-agent entries in plan.")
      else
        -- `selected_agents = [agent for agent in self.sub_agents if agent.name in task_map]`
        let selected_agents := sub_agent_names.filter
          (fun a => task_list.any (fun t => t.agent == a))
        if selected_agents.isEmpty then .error (.valueError "No sub-agent matches the plan.")
        else
          -- `for task in task_list:` look up the agent; `continue` when absent,
          -- otherwise create a branch context and start the agent run.
          .ok (task_list.filterMap (fun t =>
            match findAgentByName sub_agent_names t.agent with
            | none => none
            | some a => some (a, t.query)))

/-- The branches a run actually starts: none when the run raises before the
branch loop (both `ValueError`s fire before any branch is created). -/
def startedBranches (plan : PlanInput) (sub_agent_names : List String) :
    List (String × String) :=
  match runSelective plan sub_agent_names with
  | .ok bs => bs
  | .error _ => []

/-! ## Task-plan parsing in `CosmoFlowAgent._step1_main_agent_analysis_sync`
(src/workflow/cosmo_workflow.py, lines 153-211)

The main agent's response text is stripped of markdown fences and passed to
`json.loads`.  On `json.JSONDecodeError` the method does **not** raise: it
returns a hard-coded fallback list of three search tasks. -/

/-- The fallback tasks built in the `except json.JSONDecodeError` branch. -/
def defaultSearchTasks (user_query : String) : List Task :=
  [⟨"SearchAgent1", user_query⟩,
   ⟨"SearchAgent2", "related to " ++ user_query⟩,
   ⟨"SearchAgent3", "information about " ++ user_query⟩]

/-- The parse/fallback logic of `_step1_main_agent_analysis_sync`: a parseable
response is returned as the task list; an unparseable one is replaced by
`defaultSearchTasks` (the method only re-raises for exceptions other than
`json.JSONDecodeError`). -/
def step1MainAgentAnalysis (main_response : PlanInput) (user_query : String) :
    Except PyErr (List Task) :=
  match main_response with
  | .parsed tasks => .ok tasks
  | .unparsable _ => .ok (defaultSearchTasks user_query)

/-! ## VLM results and the fallback aggregator
(src/workflow/cosmo_workflow.py, lines 560-582) -/

/-- The result record appended by `run_vlm_agent_batch` for each processed
image (src/workflow/cosmo_workflow.py lines 368-374). -/
structure VlmResult where
  image_id : String
  image_path : String
  vlm_agent : String
  response : String
  relevance_score : ℚ

/-- `.lower()` applied characterwise.  `Char.toLower` lowers the ASCII range;
Python's `str.lower` also lowers non-ASCII letters, but the sentinel substring
`"không biết"` is itself already lowercase, so the ASCII mapping suffices for
the checks modelled here. -/
def lowerChars (cs : List Char) : List Char := cs.map Char.toLower

/-- Python's substring test `needle in hay`. -/
def containsSubChars (needle : List Char) : List Char → Bool
  | [] => needle.isEmpty
  | c :: rest => needle.isPrefixOf (c :: rest) || containsSubChars needle rest

/-- The filter of `_fallback_aggregation`:
`result["response"] and "không biết" not in result["response"].lower()`. -/
def isMeaningful (r : VlmResult) : Bool :=
  !r.response.data.isEmpty &&
    !containsSubChars "không biết".data (lowerChars r.response.data)

/-- The numbered lines `f"{i}. {result['response']} (từ {result['image_id']})"`
produced by `enumerate(meaningful_results[:3], 1)`. -/
def numberedLines : Nat → List VlmResult → List String
  | _, [] => []
  | i, r :: rs =>
      (toString i ++ ". " ++ r.response ++ " (từ " ++ r.image_id ++ ")")
        :: numberedLines (i + 1) rs

/-- Python's `"\n".join(parts)`. -/
def joinLines : List String → String
  | [] => ""
  | [s] => s
  | s :: rest => s ++ "\n" ++ joinLines rest

/-- Fixed answer for an empty VLM result list. -/
def noInfoMsg : String :=
  "Xin lỗi, không tìm thấy thông tin liên quan đến câu hỏi của bạn."

/-- Fixed answer when every VLM response is empty or contains the sentinel. -/
def noSuitableMsg : String :=
  "Tôi không thể tìm thấy thông tin phù hợp để trả lời câu hỏi này."

/-- Header line `f"Dựa trên {len(meaningful_results)} ảnh được phân tích:"`. -/
def aggregationHeader (n : Nat) : String :=
  "Dựa trên " ++ toString n ++ " ảnh được phân tích:"

/-- `CosmoFlowAgent._fallback_aggregation(user_query, vlm_results)`
(src/workflow/cosmo_workflow.py lines 560-582).  `user_query` is a parameter of
the source method but is not read by it. -/
def fallback_aggregation (user_query : String) (vlm_results : List VlmResult) :
    String :=
  if vlm_results.isEmpty then noInfoMsg
  else
    let meaningful_results := vlm_results.filter isMeaningful
    if meaningful_results.isEmpty then noSuitableMsg
    else
      joinLines (aggregationHeader meaningful_results.length
        :: numberedLines 1 (meaningful_results.take 3))

/-! ## The VLM analysis and aggregation stages of the two workflow variants

The LLM/VLM calls themselves are abstracted as oracle functions; everything
else (which agents are invoked, in which order, with which inputs, and how the
final answer is assembled) follows the source. -/

/-- An image record pooled by the parallel search stage. -/
structure Image where
  id : String
  path : String
  description : String
  relevance_score : ℚ

/-- `_step3_vlm_analysis_sync` (src/workflow/cosmo_workflow.py lines 278-407):
returns `[]` immediately when `all_images` is empty (no VLM agent invoked);
otherwise distributes the images, skips empty batches
(`... for i, batch in enumerate(image_batches) if batch`), and produces one
`VlmResult` per (agent, image) pair in batch order.  `vlm_respond` abstracts
one VLM agent call `(user query, agent name, image) ↦ response text`.  The
same fan-out code is inlined in `_run_async_impl` of
src/workflow/cosmo_backup_fix.py (lines 165-315). -/
def step3VlmAnalysis (vlm_agents : List String)
    (vlm_respond : String → String → Image → String)
    (user_query : String) (all_images : List Image) :
    Except PyErr (List VlmResult) :=
  if all_images.isEmpty then .ok []
  else
    match distribute_images_to_agents all_images vlm_agents with
    | .error e => .error e
    | .ok image_batches =>
        .ok (((image_batches.zip vlm_agents).filterMap (fun bn =>
          if bn.1.isEmpty then none
          else some (bn.1.map (fun img =>
            ({ image_id := img.id, image_path := img.path, vlm_agent := bn.2,
               response := vlm_respond user_query bn.2 img,
               relevance_score := img.relevance_score } : VlmResult))))).flatten)

/-- `_step4_aggregate_results_sync` (src/workflow/cosmo_workflow.py lines
481-558): the aggregator agent is always invoked (first component `true`);
`agg_behavior` abstracts that LLM call, `none` standing for a raised
exception, in which case the method falls back to `_fallback_aggregation`. -/
def step4Aggregate (agg_behavior : List VlmResult → Option String)
    (user_query : String) (vlm_results : List VlmResult) : Bool × String :=
  (true,
    match agg_behavior vlm_results with
    | some answer => answer
    | none => fallback_aggregation user_query vlm_results)

/-- Observable outcome of one workflow run past the search stage. -/
structure RunOutcome where
  /-- `(vlm agent name, image id)` for every VLM invocation, in order. -/
  vlmCalls : List (String × String)
  /-- whether the aggregator agent was invoked -/
  aggregatorInvoked : Bool
  finalAnswer : String
deriving Repr

/-- `CosmoFlowAgent._run_async_impl` (src/workflow/cosmo_workflow.py lines
83-144) from the point the pooled image list is known (end of step 2): step 3,
then — unconditionally — step 4; an exception escaping a step is caught by the
top-level handler, which answers `f"Xin lỗi, có lỗi xảy ra: {str(e)}"`. -/
def cosmoWorkflowFromImages (vlm_agents : List String)
    (vlm_respond : String → String → Image → String)
    (agg_behavior : List VlmResult → Option String)
    (user_query : String) (all_images : List Image) : RunOutcome :=
  match step3VlmAnalysis vlm_agents vlm_respond user_query all_images with
  | .error e => ⟨[], false, "Xin lỗi, có lỗi xảy ra: " ++ e.message⟩
  | .ok vlm_results =>
      let step4 := step4Aggregate agg_behavior user_query vlm_results
      ⟨vlm_results.map (fun r => (r.vlm_agent, r.image_id)), step4.1, step4.2⟩

/-- Fixed apology of the zero-image short-circuit in
src/workflow/cosmo_backup_fix.py line 160. -/
def noImagesMsg : String :=
  "Xin lỗi, không tìm thấy hình ảnh liên quan đến câu hỏi của bạn."

/-- `CosmoFlowAgent._run_async_impl` of src/workflow/cosmo_backup_fix.py
(lines 155-332) from the point `search_results` is known: with zero images the
run short-circuits to the fixed apology, invoking neither a VLM agent nor the
aggregator; otherwise the inlined VLM fan-out runs, the aggregator agent is
invoked, and the final answer is read from session state
(`agg_state_answer`, `none` when the aggregator wrote nothing) with default
`"Không thể tạo câu trả lời cuối cùng."`. -/
def backupFixFromImages (vlm_agents : List String)
    (vlm_respond : String → String → Image → String)
    (agg_state_answer : List VlmResult → Option String)
    (user_input : String) (search_results : List Image) : RunOutcome :=
  if search_results.isEmpty then ⟨[], false, noImagesMsg⟩
  else
    match step3VlmAnalysis vlm_agents vlm_respond user_input search_results with
    | .error e => ⟨[], false, "Xin lỗi, có lỗi xảy ra: " ++ e.message⟩
    | .ok vlm_results =>
        ⟨vlm_results.map (fun r => (r.vlm_agent, r.image_id)), true,
          (agg_state_answer vlm_results).getD "Không thể tạo câu trả lời cuối cùng."⟩

/-! ## `VectorDatabaseTool.query_database` (src/tools/tools.py, lines 150-203)

The whole method body sits in one `try`: the query embedding, the index
lookup, and the result formatting.  `except Exception as e` converts any
failure into `{"query": query, "error": str(e), "results": [], "total_found": 0}`.
The embedding model and the index are abstracted as fallible oracles. -/

/-- A metadata dict as stored alongside a document. -/
abbrev Meta := List (String × String)

/-- One formatted entry of `formatted_results["results"]`. -/
structure QueryHit where
  rank : Nat
  document : String
  metadata : Meta
  similarity_score : ℚ
  id : String

/-- The dictionary returned by `query_database` (`error` is present exactly on
the failure path). -/
structure QueryOut where
  query : String
  error : Option String
  results : List QueryHit
  total_found : Nat

/-- Raw output of `self.collection.query(...)`: a dict of per-query lists
(the code always reads index `[0]`). -/
structure RawQueryOut where
  documents : List (List String)
  metadatas : List (List Meta)
  distances : List (List ℚ)
  ids : List (List String)

/-- The result-building loop: for `i, (doc, metadata, distance)` in
`enumerate(zip(documents[0], metadatas[0], distances[0]))` append
`{"rank": i + 1, ..., "similarity_score": 1 - distance, "id": ids[0][i] if ids
else f"result_{i}"}`.  `ids[0][i]` raises `IndexError` when out of range, which
the enclosing `try` converts to the error dict. -/
def idAt (ids0 : Option (List String)) (i : Nat) : Except String String :=
  match ids0 with
  | none => .ok ("result_" ++ toString i)
  | some l =>
      match l.get? i with
      | some v => .ok v
      | none => .error "list index out of range"

def mkHits (ids0 : Option (List String)) :
    Nat → List (String × Meta × ℚ) → Except String (List QueryHit)
  | _, [] => .ok []
  | i, (doc, metadata, distance) :: rest =>
      match idAt ids0 i, mkHits ids0 (i + 1) rest with
      | .ok v, .ok hs =>
          .ok ({ rank := i + 1, document := doc, metadata := metadata,
                 similarity_score := 1 - distance, id := v } :: hs)
      | .error e, _ => .error e
      | _, .error e => .error e

/-- The guard of the result-building loop: `if results['documents'] and
results['documents'][0] and results['metadatas'] and results['metadatas'][0]
and results['distances'] and results['distances'][0]:`. -/
def rawGuard (raw : RawQueryOut) : Bool :=
  !raw.documents.isEmpty && !(raw.documents.headD []).isEmpty
    && !raw.metadatas.isEmpty && !(raw.metadatas.headD []).isEmpty
    && !raw.distances.isEmpty && !(raw.distances.headD []).isEmpty

/-- `zip(results['documents'][0], results['metadatas'][0],
results['distances'][0])` (Python `zip` truncates to the shortest input). -/
def rawTriples (raw : RawQueryOut) : List (String × Meta × ℚ) :=
  (raw.documents.headD []).zip
    ((raw.metadatas.headD []).zip (raw.distances.headD []))

/-- `results['ids'][0] if results['ids'] else` the `f"result_{i}"` default. -/
def rawIds0 (raw : RawQueryOut) : Option (List String) :=
  if raw.ids.isEmpty then none else some (raw.ids.headD [])

/-- Formatting of a successful index lookup: `total_found =
len(results['documents'][0]) if results['documents'] else 0` (which equals the
length of `headD []` in both cases), and the result list is built only when
the `rawGuard` condition holds. -/
def formatResults (query : String) (raw : RawQueryOut) : QueryOut :=
  if rawGuard raw then
    match mkHits (rawIds0 raw) 0 (rawTriples raw) with
    | .error e => ⟨query, some e, [], 0⟩
    | .ok hits => ⟨query, none, hits, (raw.documents.headD []).length⟩
  else ⟨query, none, [], (raw.documents.headD []).length⟩

/-- `query_database(query, n_results=5, filter_metadata=None)`.  `embed`
abstracts `self.embedding_model.encode`, `collection_query` abstracts
`self.collection.query`; either failing (or the formatting raising) lands in
the `except` branch, so the function is total and never raises. -/
def query_database {Emb : Type} (embed : String → Except String Emb)
    (collection_query : Emb → Nat → Option Meta → Except String RawQueryOut)
    (query : String) (n_results : Nat) (filter_metadata : Option Meta) :
    QueryOut :=
  match embed query with
  | .error e => ⟨query, some e, [], 0⟩
  | .ok query_embedding =>
      match collection_query query_embedding n_results filter_metadata with
      | .error e => ⟨query, some e, [], 0⟩
      | .ok results => formatResults query results

/-! ## API key managers

Two variants exist.  `ApiKeyManager` (src/agent/load_agent.py, lines 11-82)
guards every draw with `if not self.api_keys: raise ValueError(...)`.
`GeminiApiKeyManager` (src/multi_agent/vlm/load_model.py, lines 18-57) has no
such guard: with an empty pool, `get_next_key` indexes into an empty list
(`IndexError`) and `get_key_for_agent` computes `agent_id % 0`
(`ZeroDivisionError`). -/

/-- `self.usage_count[key] += 1` (the counter dict is modelled as a
function). -/
def bumpUsage {κ : Type} [DecidableEq κ] (f : κ → Nat) (k : κ) : κ → Nat :=
  fun x => if x = k then f x + 1 else f x

/-- State of `ApiKeyManager` (src/agent/load_agent.py). -/
structure ApiKeyManager where
  api_keys : List String
  current_index : Nat
  usage_count : String → Nat

/-- `ApiKeyManager.get_next_key` (src/agent/load_agent.py lines 44-55). -/
def ApiKeyManager.get_next_key (self : ApiKeyManager) :
    Except PyErr (String × ApiKeyManager) :=
  if self.api_keys.isEmpty then
    .error (.valueError "No API keys available. Please check your config.env file.")
  else
    match self.api_keys.get? self.current_index with
    | none => .error .indexError
    | some key =>
        .ok (key,
          { self with
            usage_count := bumpUsage self.usage_count key,
            current_index := (self.current_index + 1) % self.api_keys.length })

/-- `ApiKeyManager.get_key_for_agent` (src/agent/load_agent.py lines 57-67). -/
def ApiKeyManager.get_key_for_agent (self : ApiKeyManager) (agent_id : Nat) :
    Except PyErr (String × ApiKeyManager) :=
  if self.api_keys.isEmpty then
    .error (.valueError "No API keys available. Please check your config.env file.")
  else
    let key_index := agent_id % self.api_keys.length
    match self.api_keys.get? key_index with
    | none => .error .indexError
    | some key => .ok (key, { self with usage_count := bumpUsage self.usage_count key })

/-- State of `GeminiApiKeyManager` (src/multi_agent/vlm/load_model.py).  The
pool entries come from `os.getenv` and may be `None`, so the key type is a
parameter (`Option String` for the concrete pool built at module scope). -/
structure GeminiApiKeyManager (κ : Type) where
  api_keys : List κ
  current_index : Nat
  usage_count : κ → Nat

/-- `GeminiApiKeyManager.get_next_key` (src/multi_agent/vlm/load_model.py
lines 25-33): `self.api_keys[self.current_index]` with no emptiness guard —
an empty pool raises `IndexError`. -/
def GeminiApiKeyManager.get_next_key {κ : Type} [DecidableEq κ]
    (self : GeminiApiKeyManager κ) : Except PyErr (κ × GeminiApiKeyManager κ) :=
  match self.api_keys.get? self.current_index with
  | none => .error .indexError
  | some key =>
      .ok (key,
        { self with
          usage_count := bumpUsage self.usage_count key,
          current_index := (self.current_index + 1) % self.api_keys.length })

/-- `GeminiApiKeyManager.get_key_for_agent` (src/multi_agent/vlm/load_model.py
lines 35-42): `key_index = agent_id % len(self.api_keys)` with no emptiness
guard — an empty pool raises `ZeroDivisionError`. -/
def GeminiApiKeyManager.get_key_for_agent {κ : Type} [DecidableEq κ]
    (self : GeminiApiKeyManager κ) (agent_id : Nat) :
    Except PyErr (κ × GeminiApiKeyManager κ) :=
  if self.api_keys.length = 0 then .error .zeroDivisionError
  else
    match self.api_keys.get? (agent_id % self.api_keys.length) with
    | none => .error .indexError
    | some key => .ok (key, { self with usage_count := bumpUsage self.usage_count key })

/-- Whether a draw failed with the Configuration error of §7 of the spec
(`ValueError("No API keys available...")`). -/
def isConfigError {α : Type} : Except PyErr α → Bool
  | .error (.valueError _) => true
  | _ => false

/-! ## PDF merge utility (src/merge_pdf.py)

```
def natural_key(p: Path):
    return [int(t) if t.isdigit() else t.lower()
            for t in re.split(r'(\d+)', p.stem)]

png_files = sorted(folder.glob("*.png"), key=natural_key)
if not png_files:
    raise FileNotFoundError("Không tìm thấy ảnh PNG.")
```

Filenames are modelled as `List Char` so that keys evaluate in the kernel.
A key is a `List (ℕ ⊕ₗ (List Char))`: numeric tokens on the left, text
tokens on the right, compared with Mathlib's lexicographic orders.  Python
would raise `TypeError` on an int-vs-str comparison; the `Lex` sum order
totalises that case (left before right), but it is never exercised by keys of
actual stems, whose tokens alternate text/number in the same positions. -/

/-- Index of the last `'.'` in a filename, if any. -/
def lastDotIdx (name : List Char) : Option Nat :=
  match name.reverse.findIdx? (fun c => c == '.') with
  | none => none
  | some j => some (name.length - 1 - j)

/-- `pathlib.PurePath.stem`: the filename without its suffix; the suffix is
what follows the last `'.'` provided that dot is neither the first nor the
last character of the name. -/
def stemOf (name : List Char) : List Char :=
  match lastDotIdx name with
  | none => name
  | some i => if 0 < i ∧ i < name.length - 1 then name.take i else name

/-- A raw token of `re.split(r'(\d+)', stem)`: a (possibly empty) run of
non-digits, or a maximal non-empty run of digits (the capture group). -/
inductive RToken where
  | txt (cs : List Char)
  | digs (cs : List Char)
deriving DecidableEq, Repr

/-- `re.split(r'(\d+)', stem)`: alternating text/digit tokens, beginning and
ending with a (possibly empty) text token. -/
def rtokens : List Char → List RToken
  | [] => [.txt []]
  | c :: cs =>
      if c.isDigit then
        match rtokens cs with
        | .txt [] :: .digs d :: rest => .txt [] :: .digs (c :: d) :: rest
        | toks => .txt [] :: .digs [c] :: toks
      else
        match rtokens cs with
        | .txt t :: rest => .txt (c :: t) :: rest
        | toks => .txt [c] :: toks

/-- `int(t)` for a token of digits. -/
def digitsVal (ds : List Char) : Nat :=
  ds.foldl (fun acc c => acc * 10 + (c.toNat - '0'.toNat)) 0

/-- `natural_key(p)`: `int(t) if t.isdigit() else t.lower()` over the split
tokens of `p.stem`. -/
def natural_key (filename : List Char) : List (ℕ ⊕ₗ (List Char)) :=
  (rtokens (stemOf filename)).map (fun t =>
    match t with
    | .digs d => toLex (Sum.inl (digitsVal d))
    | .txt t => toLex (Sum.inr (t.map Char.toLower)))

/-- The comparison `sorted(..., key=natural_key)` sorts by. -/
def naturalKeyLe (a b : List Char) : Prop := natural_key a ≤ natural_key b

instance : DecidableRel naturalKeyLe :=
  fun a b => inferInstanceAs (Decidable (natural_key a ≤ natural_key b))

instance : IsTotal (List Char) naturalKeyLe :=
  ⟨fun a b => le_total (natural_key a) (natural_key b)⟩

instance : IsTrans (List Char) naturalKeyLe :=
  ⟨fun _ _ _ h1 h2 => le_trans h1 h2⟩

/-- The PNG collection step of src/merge_pdf.py: sort the globbed PNG
filenames by `natural_key` and raise `FileNotFoundError` when there are
none. -/
def mergePdfPngs (png_files : List (List Char)) :
    Except PyErr (List (List Char)) :=
  let sortedFiles := List.insertionSort naturalKeyLe png_files
  if sortedFiles.isEmpty then
    .error (.fileNotFoundError "Không tìm thấy ảnh PNG.")
  else .ok sortedFiles

/-! ## Theorems -/

/-! ### Image distribution (claims C1, C10) -/

theorem takeBatches_length {α : Type} (sizes : List Nat) (imgs : List α) :
    (takeBatches imgs sizes).length = sizes.length := by
  induction sizes generalizing imgs with
  | nil => rfl
  | cons s rest ih => simp [takeBatches, ih]

theorem takeBatches_flatten {α : Type} (sizes : List Nat) (imgs : List α) :
    (takeBatches imgs sizes).flatten = imgs.take sizes.sum := by
  induction sizes generalizing imgs with
  | nil => simp [takeBatches]
  | cons s rest ih =>
      simp only [takeBatches, List.flatten_cons, ih, List.sum_cons, List.take_add]

theorem takeBatches_length_get? {α : Type} (sizes : List Nat) (imgs : List α)
    (hsum : sizes.sum ≤ imgs.length) (i : Nat) :
    ((takeBatches imgs sizes).get? i).map List.length = sizes.get? i := by
  induction sizes generalizing imgs i with
  | nil => rfl
  | cons s rest ih =>
      rw [List.sum_cons] at hsum
      cases i with
      | zero =>
          show some (imgs.take s).length = some s
          rw [List.length_take, Nat.min_eq_left (by omega)]
      | succ i =>
          show ((takeBatches (imgs.drop s) rest).get? i).map List.length
            = rest.get? i
          apply ih
          rw [List.length_drop]
          omega

theorem sum_map_range_base_ite (M b r : Nat) :
    ((List.range M).map (fun i => b + if i < r then 1 else 0)).sum
      = M * b + min r M := by
  induction M with
  | zero => simp
  | succ M ih =>
      rw [List.range_succ, List.map_append, List.sum_append, ih]
      simp only [List.map_cons, List.map_nil, List.sum_cons, List.sum_nil,
        Nat.succ_mul]
      by_cases h : M < r
      · rw [if_pos h, Nat.min_eq_right h.le, Nat.min_eq_right h]
        omega
      · rw [if_neg h, Nat.min_eq_left (by omega), Nat.min_eq_left (by omega)]
        omega

theorem batchSizes_length (N M : Nat) : (batchSizes N M).length = M := by
  simp [batchSizes]

theorem batchSizes_sum (N M : Nat) (h : 0 < M) : (batchSizes N M).sum = N := by
  unfold batchSizes
  rw [sum_map_range_base_ite]
  have h1 : N % M < M := Nat.mod_lt _ h
  rw [Nat.min_eq_left h1.le, Nat.div_add_mod]

theorem batchSizes_get? (N M i : Nat) (hi : i < M) :
    (batchSizes N M).get? i = some (N / M + if i < N % M then 1 else 0) := by
  unfold batchSizes
  rw [List.get?_eq_getElem?, List.getElem?_map, List.getElem?_range hi]
  rfl

/-- **C1.**  For every image list and every non-empty agent list,
`distribute_images_to_agents` returns exactly one batch per agent; the `i`-th
batch has size `N / M` plus one exactly when `i < N % M` (so each batch has
size `N / M` or `N / M + 1`, and exactly the first `N % M` batches have the
larger size); and the concatenation of the batches in order is the original
image list. -/
theorem distribute_images_to_agents_balanced {α β : Type}
    (all_images : List α) (vlm_agents : List β) (hM : vlm_agents ≠ []) :
    ∃ batches,
      distribute_images_to_agents all_images vlm_agents = .ok batches ∧
      batches.length = vlm_agents.length ∧
      (∀ i, i < vlm_agents.length →
        (batches.get? i).map List.length
          = some (all_images.length / vlm_agents.length
              + if i < all_images.length % vlm_agents.length then 1 else 0)) ∧
      (∀ i, i < vlm_agents.length →
        (batches.get? i).map List.length
            = some (all_images.length / vlm_agents.length) ∨
        (batches.get? i).map List.length
            = some (all_images.length / vlm_agents.length + 1)) ∧
      (∀ i, i < vlm_agents.length →
        ((batches.get? i).map List.length
            = some (all_images.length / vlm_agents.length + 1)
          ↔ i < all_images.length % vlm_agents.length)) ∧
      batches.flatten = all_images := by
  have hM0 : vlm_agents.length ≠ 0 := by
    intro h
    exact hM (List.length_eq_zero.mp h)
  have hMpos : 0 < vlm_agents.length := Nat.pos_of_ne_zero hM0
  refine ⟨takeBatches all_images
      (batchSizes all_images.length vlm_agents.length), ?_, ?_, ?_, ?_, ?_, ?_⟩
  · simp [distribute_images_to_agents, hM0]
  · rw [takeBatches_length, batchSizes_length]
  · intro i hi
    rw [takeBatches_length_get? _ _ (by rw [batchSizes_sum _ _ hMpos]),
      batchSizes_get? _ _ _ hi]
  · intro i hi
    rw [takeBatches_length_get? _ _ (by rw [batchSizes_sum _ _ hMpos]),
      batchSizes_get? _ _ _ hi]
    by_cases h : i < all_images.length % vlm_agents.length
    · right; simp [h]
    · left; simp [h]
  · intro i hi
    rw [takeBatches_length_get? _ _ (by rw [batchSizes_sum _ _ hMpos]),
      batchSizes_get? _ _ _ hi]
    by_cases h : i < all_images.length % vlm_agents.length
    · simp [h]
    · simp only [if_neg h, Nat.add_zero, Option.some.injEq]
      constructor
      · intro hcontr; omega
      · intro hcontr; exact absurd hcontr h
  · rw [takeBatches_flatten, batchSizes_sum _ _ hMpos, List.take_length]

/-- Witness for C1 at `N = 7`, `M = 3`: batch sizes `[3, 2, 2]` and the
concatenation reproduces the image list. -/
theorem distribute_images_to_agents_balanced_witness :
    ∃ batches,
      distribute_images_to_agents ([0, 1, 2, 3, 4, 5, 6] : List ℕ)
          (["A", "B", "C"] : List String) = .ok batches ∧
      batches.length = 3 ∧
      batches.flatten = [0, 1, 2, 3, 4, 5, 6] := by
  obtain ⟨bs, h1, h2, -, -, -, h6⟩ :=
    distribute_images_to_agents_balanced ([0, 1, 2, 3, 4, 5, 6] : List ℕ)
      (["A", "B", "C"] : List String) (by decide)
  exact ⟨bs, h1, h2, h6⟩

/-- **C10.**  `distribute_images_to_agents` with an empty agent list raises
`ZeroDivisionError` (from `num_images // num_agents`) for every image list,
instead of returning a partition; callers must ensure the agent pool is
non-empty. -/
theorem distribute_images_to_agents_empty_agents {α β : Type}
    (all_images : List α) :
    distribute_images_to_agents all_images ([] : List β)
      = .error .zeroDivisionError := rfl

/-! ### Selective routing (claim C2) -/

theorem findAgentByName_eq (names : List String) (x : String) :
    findAgentByName names x = if names.contains x then some x else none := by
  induction names with
  | nil => rfl
  | cons a rest ih =>
      unfold findAgentByName at ih ⊢
      rw [List.find?_cons, List.contains_cons]
      by_cases h : a = x
      · subst h
        simp
      · have h1 : (a == x) = false := by
          simp [h]
        have h2 : (x == a) = false := by
          simp [Ne.symm h]
        rw [h1, h2, ih]
        simp

theorem branchOf_eq (names : List String) (t : Task) :
    (match findAgentByName names t.agent with
     | none => none
     | some a => some (a, t.query))
      = if names.contains t.agent then some (t.agent, t.query) else none := by
  rw [findAgentByName_eq]
  by_cases h : names.contains t.agent
  · rw [if_pos h, if_pos h]
  · rw [if_neg h, if_neg h]

theorem filterMap_ite_eq_filter_map {α β : Type} (p : α → Bool) (f : α → β)
    (l : List α) :
    l.filterMap (fun x => if p x then some (f x) else none)
      = (l.filter p).map f := by
  induction l with
  | nil => rfl
  | cons a rest ih =>
      by_cases h : p a
      · simp [List.filterMap_cons, List.filter_cons, h, ih]
      · simp [List.filterMap_cons, List.filter_cons, h, ih]

/-- Core routing equation for a valid stored plan: the branches started are
exactly one per plan entry whose agent name occurs among the configured
sub-agents, in plan order (both error paths of `runSelective` start no branch
and correspond to a plan with no matching entry). -/
theorem startedBranches_parsed (plan : List Task) (names : List String) :
    startedBranches (.parsed plan) names
      = (plan.filter (fun t => names.contains t.agent)).map
          (fun t => (t.agent, t.query)) := by
  unfold startedBranches runSelective
  dsimp only
  by_cases hempty : plan.isEmpty
  · have : plan = [] := List.isEmpty_iff.mp hempty
    subst this
    simp
  · rw [if_neg hempty]
    by_cases hsel : (names.filter (fun a => plan.any (fun t => t.agent == a))).isEmpty
    · rw [if_pos hsel]
      have hfilter : ∀ a ∈ names, ¬ (plan.any (fun t => t.agent == a) = true) := by
        rw [← List.filter_eq_nil_iff, ← List.isEmpty_iff]
        exact hsel
      have : plan.filter (fun t => names.contains t.agent) = [] := by
        rw [List.filter_eq_nil_iff]
        intro t ht hc
        rw [List.contains_eq_any_beq, List.any_eq_true] at hc
        obtain ⟨a, ha, hbeq⟩ := hc
        have : t.agent = a := eq_of_beq hbeq
        exact hfilter a ha
          (List.any_eq_true.mpr ⟨t, ht, by rw [this]; exact beq_self_eq_true a⟩)
      rw [this]
      rfl
    · rw [if_neg hsel]
      show plan.filterMap _ = _
      calc plan.filterMap (fun t =>
              match findAgentByName names t.agent with
              | none => none
              | some a => some (a, t.query))
          = plan.filterMap (fun t =>
              if names.contains t.agent then some (t.agent, t.query) else none) :=
            List.filterMap_congr (fun t _ => branchOf_eq names t)
        _ = (plan.filter (fun t => names.contains t.agent)).map
              (fun t => (t.agent, t.query)) :=
            filterMap_ite_eq_filter_map _ _ plan

/-- **C2.**  For every valid stored TaskPlan, the selective orchestrator
starts exactly one branch per plan entry whose agent name matches a configured
sub-agent (in plan order, so an agent named twice is invoked twice — the
`countP` clause); and it never starts a branch for a configured sub-agent
whose name appears nowhere in the plan. -/
theorem selective_routing_invariant (plan : List Task) (names : List String) :
    startedBranches (.parsed plan) names
      = (plan.filter (fun t => names.contains t.agent)).map
          (fun t => (t.agent, t.query)) ∧
    (∀ a, a ∈ names → (∀ t, t ∈ plan → t.agent ≠ a) →
      ∀ b, b ∈ startedBranches (.parsed plan) names → b.1 ≠ a) ∧
    (∀ a, names.contains a = true →
      (startedBranches (.parsed plan) names).countP (fun b => b.1 == a)
        = plan.countP (fun t => t.agent == a)) := by
  refine ⟨startedBranches_parsed plan names, ?_, ?_⟩
  · intro a _ hnot b hb
    rw [startedBranches_parsed] at hb
    obtain ⟨t, htf, rfl⟩ := List.mem_map.mp hb
    exact hnot t (List.mem_filter.mp htf).1
  · intro a ha
    rw [startedBranches_parsed, List.countP_map, List.countP_filter]
    apply List.countP_congr
    intro t ht
    have ha' : a ∈ names := by
      simpa using ha
    by_cases h : t.agent = a
    · simp [Function.comp, h, ha']
    · simp [Function.comp, h]

/-- Witness for C2: a plan naming `Agent1` twice and `Agent3` once, against a
pool `{Agent1, Agent2, Agent3}`, starts exactly the three matching branches in
plan order and none for `Agent2`. -/
theorem selective_routing_invariant_witness :
    startedBranches
        (.parsed [⟨"Agent1", "q1"⟩, ⟨"Agent3", "q2"⟩, ⟨"Agent1", "q3"⟩])
        ["Agent1", "Agent2", "Agent3"]
      = [("Agent1", "q1"), ("Agent3", "q2"), ("Agent1", "q3")] :=
  (selective_routing_invariant
      [⟨"Agent1", "q1"⟩, ⟨"Agent3", "q2"⟩, ⟨"Agent1", "q3"⟩]
      ["Agent1", "Agent2", "Agent3"]).1.trans (by decide)

/-! ### Zero-image short-circuit (claim C3) -/

/-- **C3, counterexample.**  In the `cosmo_workflow.py` variant, a run whose
search stage pooled zero images still invokes the aggregator agent (step 4 is
unconditional), and the final answer is whatever the aggregator returns — not
the fixed no-images apology. -/
theorem cosmo_zero_images_invokes_aggregator :
    (cosmoWorkflowFromImages ["VLM1", "VLM2"] (fun _ _ _ => "")
        (fun _ => some "aggregated") "q" []).aggregatorInvoked = true ∧
    (cosmoWorkflowFromImages ["VLM1", "VLM2"] (fun _ _ _ => "")
        (fun _ => some "aggregated") "q" []).finalAnswer = "aggregated" :=
  ⟨rfl, rfl⟩

/-- **C3, amended.**  With zero pooled images, no VLM agent is invoked in
either variant; the `cosmo_backup_fix.py` variant short-circuits without
invoking the aggregator and answers the fixed no-images apology, while the
`cosmo_workflow.py` variant still invokes the aggregator on the empty result
list (its no-information apology surfaces only through the fallback, when the
aggregator call itself fails). -/
theorem vlm_zero_images_short_circuit (vlm_agents : List String)
    (vlm_respond : String → String → Image → String)
    (agg_behavior agg_state : List VlmResult → Option String) (q : String) :
    backupFixFromImages vlm_agents vlm_respond agg_state q []
      = ⟨[], false, noImagesMsg⟩ ∧
    (cosmoWorkflowFromImages vlm_agents vlm_respond agg_behavior q []).vlmCalls
      = [] ∧
    (cosmoWorkflowFromImages vlm_agents vlm_respond agg_behavior q
        []).aggregatorInvoked = true ∧
    (agg_behavior [] = none →
      (cosmoWorkflowFromImages vlm_agents vlm_respond agg_behavior q
        []).finalAnswer = noInfoMsg) := by
  refine ⟨rfl, rfl, rfl, ?_⟩
  intro h
  show (match agg_behavior [] with
        | some answer => answer
        | none => fallback_aggregation q []) = noInfoMsg
  rw [h]
  rfl

/-- Witness for C3's amended statement at a concrete failing aggregator. -/
theorem vlm_zero_images_short_circuit_witness :
    (cosmoWorkflowFromImages ["V1"] (fun _ _ _ => "") (fun _ => none) "q"
        []).finalAnswer = noInfoMsg ∧
    backupFixFromImages ["V1"] (fun _ _ _ => "") (fun _ => none) "q" []
      = ⟨[], false, noImagesMsg⟩ := by
  obtain ⟨h1, h2, h3, h4⟩ := vlm_zero_images_short_circuit ["V1"]
    (fun _ _ _ => "") (fun _ => none) (fun _ => none) "q"
  exact ⟨h4 rfl, h1⟩

/-! ### Fallback aggregation (claim C4) -/

theorem isMeaningful_false_iff (r : VlmResult) :
    isMeaningful r = false ↔
      r.response.data = [] ∨
        containsSubChars "không biết".data (lowerChars r.response.data) = true := by
  unfold isMeaningful
  constructor
  · intro h
    by_cases he : r.response.data = []
    · exact Or.inl he
    · right
      have hA : r.response.data.isEmpty = false := by
        cases hd : r.response.data with
        | nil => exact absurd hd he
        | cons a l => rfl
      rw [hA] at h
      cases hB : containsSubChars "không biết".data (lowerChars r.response.data) with
      | false => rw [hB] at h; exact absurd h (by decide)
      | true => rfl
  · intro h
    rcases h with he | hB
    · have hA : r.response.data.isEmpty = true := by rw [he]; rfl
      rw [hA]
      rfl
    · rw [hB]
      simp

theorem numberedLines_length (i : Nat) (l : List VlmResult) :
    (numberedLines i l).length = l.length := by
  induction l generalizing i with
  | nil => rfl
  | cons r rs ih => simp [numberedLines, ih]

theorem joinLines_cons_data (s : String) (rest : List String) :
    ∃ t, (joinLines (s :: rest)).data = s.data ++ t := by
  cases rest with
  | nil =>
      refine ⟨[], ?_⟩
      simp [joinLines]
  | cons r rs =>
      refine ⟨"\n".data ++ (joinLines (r :: rs)).data, ?_⟩
      show (s ++ "\n" ++ joinLines (r :: rs)).data = _
      rw [String.data_append, String.data_append, List.append_assoc]

theorem aggregationHeader_head (n : Nat) :
    ∃ t, (aggregationHeader n).data = 'D' :: t := by
  unfold aggregationHeader
  rw [String.data_append, String.data_append]
  exact ⟨_, rfl⟩

theorem meaningful_output_ne (n : Nat) (rest : List String) :
    joinLines (aggregationHeader n :: rest) ≠ noSuitableMsg := by
  intro h
  obtain ⟨t1, h1⟩ := joinLines_cons_data (aggregationHeader n) rest
  obtain ⟨t2, h2⟩ := aggregationHeader_head n
  have hd := congrArg String.data h
  rw [h1, h2] at hd
  have hmsg : noSuitableMsg.data
      = 'T' :: "ôi không thể tìm thấy thông tin phù hợp để trả lời câu hỏi này.".data := rfl
  rw [List.cons_append, hmsg] at hd
  injection hd with hc _
  exact absurd hc (by decide)

/-- **C4.**  For a non-empty VLM result list, the fallback aggregator returns
the fixed "could not find suitable information" message exactly when every
result's response is empty or contains the `"không biết"` sentinel
(case-insensitively); otherwise it returns the numbered list built from at
most the first 3 non-sentinel responses in order, each line annotated with
that response's image id. -/
theorem fallback_aggregation_spec (q : String) (res : List VlmResult)
    (hne : res ≠ []) :
    (fallback_aggregation q res = noSuitableMsg ↔
      ∀ r ∈ res, r.response.data = [] ∨
        containsSubChars "không biết".data (lowerChars r.response.data) = true) ∧
    ((res.filter isMeaningful) ≠ [] →
      fallback_aggregation q res
        = joinLines (aggregationHeader (res.filter isMeaningful).length
            :: numberedLines 1 ((res.filter isMeaningful).take 3))) ∧
    (numberedLines 1 ((res.filter isMeaningful).take 3)).length ≤ 3 := by
  have hresne : res.isEmpty = false := by
    cases h : res with
    | nil => exact absurd h hne
    | cons a l => rfl
  have hpart3 : (numberedLines 1 ((res.filter isMeaningful).take 3)).length ≤ 3 := by
    rw [numberedLines_length]
    exact List.length_take_le 3 _
  unfold fallback_aggregation
  rw [hresne, if_neg Bool.false_ne_true]
  dsimp only
  by_cases hm : (res.filter isMeaningful).isEmpty
  · rw [if_pos hm]
    refine ⟨?_, ?_, hpart3⟩
    · constructor
      · intro _ r hr
        have hfilter := List.filter_eq_nil_iff.mp (List.isEmpty_iff.mp hm)
        have := hfilter r hr
        exact (isMeaningful_false_iff r).mp (by
          cases hb : isMeaningful r
          · rfl
          · exact absurd hb this)
      · intro _
        rfl
    · intro hcontr
      exact absurd (List.isEmpty_iff.mp hm) hcontr
  · rw [if_neg hm]
    refine ⟨?_, ?_, hpart3⟩
    · constructor
      · intro h
        exact absurd h (meaningful_output_ne _ _)
      · intro hall
        obtain ⟨r, hr⟩ := List.exists_mem_of_ne_nil (res.filter isMeaningful) (by
          intro hcontr
          rw [hcontr] at hm
          exact hm rfl)
        have hmem := List.mem_filter.mp hr
        have hfalse := (isMeaningful_false_iff r).mpr (hall r hmem.1)
        rw [hmem.2] at hfalse
        exact absurd hfalse (by decide)
    · intro _
      rfl

/-- Witness for C4: a single all-sentinel response yields the fixed
message. -/
theorem fallback_aggregation_spec_witness :
    fallback_aggregation "q"
        [{ image_id := "doc_1", image_path := "p", vlm_agent := "V",
           response := "Tôi không biết", relevance_score := 0 }] = noSuitableMsg := by
  refine ((fallback_aggregation_spec "q" _ (List.cons_ne_nil _ _)).1).mpr ?_
  intro r hr
  rw [List.mem_singleton] at hr
  subst hr
  right
  decide

/-! ### `query_database` (claims C5, C6) -/

theorem mkHits_get? (ids0 : Option (List String)) :
    ∀ (triples : List (String × Meta × ℚ)) (i0 : Nat) (hs : List QueryHit),
      mkHits ids0 i0 triples = .ok hs →
      ∀ j hit, hs.get? j = some hit →
        ∃ trip, triples.get? j = some trip ∧
          hit.rank = i0 + j + 1 ∧
          hit.similarity_score = 1 - trip.2.2 := by
  intro triples
  induction triples with
  | nil =>
      intro i0 hs h j hit hj
      simp only [mkHits] at h
      cases h
      simp at hj
  | cons trip rest ih =>
      intro i0 hs h j hit hj
      obtain ⟨doc, md, dist⟩ := trip
      simp only [mkHits] at h
      cases hid : idAt ids0 i0 with
      | error e =>
          rw [hid] at h
          cases hrec : mkHits ids0 (i0 + 1) rest with
          | error e2 => rw [hrec] at h; cases h
          | ok hs' => rw [hrec] at h; cases h
      | ok v =>
          rw [hid] at h
          cases hrec : mkHits ids0 (i0 + 1) rest with
          | error e => rw [hrec] at h; cases h
          | ok hs' =>
              rw [hrec] at h
              cases h
              cases j with
              | zero =>
                  rw [List.get?_cons_zero] at hj
                  cases hj
                  refine ⟨(doc, md, dist), rfl, ?_, rfl⟩
                  show i0 + 1 = i0 + 0 + 1
                  omega
              | succ j =>
                  rw [List.get?_cons_succ] at hj
                  obtain ⟨t, ht, hr, hsim⟩ := ih (i0 + 1) hs' hrec j hit hj
                  exact ⟨t, by rw [List.get?_cons_succ]; exact ht, by omega, hsim⟩

theorem zip3_get?_third {α β γ : Type} :
    ∀ (l1 : List α) (l2 : List β) (l3 : List γ) (j : Nat) (a : α) (b : β) (c : γ),
      (l1.zip (l2.zip l3)).get? j = some (a, b, c) → l3.get? j = some c := by
  intro l1
  induction l1 with
  | nil => intro l2 l3 j a b c h; simp at h
  | cons x xs ih =>
      intro l2 l3 j a b c h
      cases l2 with
      | nil => simp at h
      | cons y ys =>
          cases l3 with
          | nil => simp at h
          | cons z zs =>
              cases j with
              | zero =>
                  simp only [List.zip_cons_cons, List.get?_cons_zero] at h
                  cases h
                  rfl
              | succ j =>
                  simp only [List.zip_cons_cons, List.get?_cons_succ] at h
                  exact ih ys zs j a b c h

theorem formatResults_query (q : String) (raw : RawQueryOut) :
    (formatResults q raw).query = q := by
  unfold formatResults
  by_cases hg : rawGuard raw = true
  · rw [if_pos hg]
    cases hmk : mkHits (rawIds0 raw) 0 (rawTriples raw) with
    | error e => rfl
    | ok hits => rfl
  · rw [if_neg hg]

theorem formatResults_error_shape (q : String) (raw : RawQueryOut) :
    (formatResults q raw).error.isSome →
      (formatResults q raw).results = [] ∧ (formatResults q raw).total_found = 0 := by
  unfold formatResults
  by_cases hg : rawGuard raw = true
  · rw [if_pos hg]
    cases hmk : mkHits (rawIds0 raw) 0 (rawTriples raw) with
    | error e =>
        intro _
        exact ⟨rfl, rfl⟩
    | ok hits =>
        intro h
        simp at h
  · rw [if_neg hg]
    intro h
    simp at h

theorem formatResults_rank (q : String) (raw : RawQueryOut) :
    ∀ j hit, (formatResults q raw).results.get? j = some hit → hit.rank = j + 1 := by
  unfold formatResults
  by_cases hg : rawGuard raw = true
  · rw [if_pos hg]
    cases hmk : mkHits (rawIds0 raw) 0 (rawTriples raw) with
    | error e =>
        intro j hit hj
        simp at hj
    | ok hits =>
        intro j hit hj
        have hj' : hits.get? j = some hit := hj
        obtain ⟨trip, _, hr, _⟩ := mkHits_get? _ _ 0 hits hmk j hit hj'
        omega
  · rw [if_neg hg]
    intro j hit hj
    simp at hj

theorem formatResults_similarity (q : String) (raw : RawQueryOut) :
    ∀ j hit, (formatResults q raw).results.get? j = some hit →
      ∃ d, (raw.distances.headD []).get? j = some d ∧
        hit.similarity_score = 1 - d := by
  unfold formatResults
  by_cases hg : rawGuard raw = true
  · rw [if_pos hg]
    cases hmk : mkHits (rawIds0 raw) 0 (rawTriples raw) with
    | error e =>
        intro j hit hj
        simp at hj
    | ok hits =>
        intro j hit hj
        have hj' : hits.get? j = some hit := hj
        obtain ⟨trip, htrip, _, hsim⟩ := mkHits_get? _ _ 0 hits hmk j hit hj'
        obtain ⟨a, b, c⟩ := trip
        exact ⟨c, zip3_get?_third _ _ _ j a b c htrip, hsim⟩
  · rw [if_neg hg]
    intro j hit hj
    simp at hj

theorem query_database_embed_error {Emb : Type}
    (embed : String → Except String Emb)
    (collection_query : Emb → Nat → Option Meta → Except String RawQueryOut)
    (query : String) (n_results : Nat) (filter_metadata : Option Meta)
    (e : String) (hemb : embed query = .error e) :
    query_database embed collection_query query n_results filter_metadata
      = ⟨query, some e, [], 0⟩ := by
  unfold query_database
  rw [hemb]

theorem query_database_cq_error {Emb : Type}
    (embed : String → Except String Emb)
    (collection_query : Emb → Nat → Option Meta → Except String RawQueryOut)
    (query : String) (n_results : Nat) (filter_metadata : Option Meta)
    (emb : Emb) (e : String) (hemb : embed query = .ok emb)
    (hcq : collection_query emb n_results filter_metadata = .error e) :
    query_database embed collection_query query n_results filter_metadata
      = ⟨query, some e, [], 0⟩ := by
  unfold query_database
  rw [hemb]
  dsimp only
  rw [hcq]

theorem query_database_cq_ok {Emb : Type}
    (embed : String → Except String Emb)
    (collection_query : Emb → Nat → Option Meta → Except String RawQueryOut)
    (query : String) (n_results : Nat) (filter_metadata : Option Meta)
    (emb : Emb) (raw : RawQueryOut) (hemb : embed query = .ok emb)
    (hcq : collection_query emb n_results filter_metadata = .ok raw) :
    query_database embed collection_query query n_results filter_metadata
      = formatResults query raw := by
  unfold query_database
  rw [hemb]
  dsimp only
  rw [hcq]

/-- **C5.**  `query_database` is total (every Python exception is caught by
the method's `try`/`except`): it always returns an object carrying the
original query; on an embedding or index-lookup failure it returns exactly
`{query, error, results = [], total_found = 0}`; whenever an error is reported
the result list is empty with `total_found = 0`; and on success the ranks are
1-based and consecutive. -/
theorem query_database_never_raises {Emb : Type}
    (embed : String → Except String Emb)
    (collection_query : Emb → Nat → Option Meta → Except String RawQueryOut)
    (query : String) (n_results : Nat) (filter_metadata : Option Meta) :
    (query_database embed collection_query query n_results
        filter_metadata).query = query ∧
    (∀ e, embed query = .error e →
      query_database embed collection_query query n_results filter_metadata
        = ⟨query, some e, [], 0⟩) ∧
    (∀ emb e, embed query = .ok emb →
      collection_query emb n_results filter_metadata = .error e →
      query_database embed collection_query query n_results filter_metadata
        = ⟨query, some e, [], 0⟩) ∧
    ((query_database embed collection_query query n_results
        filter_metadata).error.isSome →
      (query_database embed collection_query query n_results
        filter_metadata).results = [] ∧
      (query_database embed collection_query query n_results
        filter_metadata).total_found = 0) ∧
    (∀ j hit,
      (query_database embed collection_query query n_results
        filter_metadata).results.get? j = some hit → hit.rank = j + 1) := by
  refine ⟨?_, fun e he => query_database_embed_error _ _ _ _ _ e he,
    fun emb e hemb hcq => query_database_cq_error _ _ _ _ _ emb e hemb hcq,
    ?_, ?_⟩
  all_goals {
    cases hemb : embed query with
    | error e =>
        rw [query_database_embed_error _ _ _ _ _ e hemb]
        try first
          | rfl
          | (intro h; exact ⟨rfl, rfl⟩)
          | (intro j hit hj; simp at hj)
    | ok emb =>
        cases hcq : collection_query emb n_results filter_metadata with
        | error e =>
            rw [query_database_cq_error _ _ _ _ _ emb e hemb hcq]
            try first
              | rfl
              | (intro h; exact ⟨rfl, rfl⟩)
              | (intro j hit hj; simp at hj)
        | ok raw =>
            rw [query_database_cq_ok _ _ _ _ _ emb raw hemb hcq]
            first
              | exact formatResults_query query raw
              | exact formatResults_error_shape query raw
              | exact formatResults_rank query raw
  }

/-- Witness for C5 at a concretely failing embedding oracle. -/
theorem query_database_never_raises_witness :
    (query_database (fun _ : String => (.error "boom" : Except String Unit))
        (fun _ _ _ => .error "nope") "hello" 5 none)
      = ⟨"hello", some "boom", [], 0⟩ :=
  (query_database_never_raises (fun _ : String => (.error "boom" : Except String Unit))
      (fun _ _ _ => .error "nope") "hello" 5 none).2.1 "boom" rfl

/-- **C6, amended.**  Every returned result's `similarity_score` equals
`1 - distance` for the distance the index reported at the same position; the
score lies in `[0, 1]` whenever that distance lies in `[0, 1]` (no clamping is
applied, so out-of-range distances yield out-of-range scores). -/
theorem query_database_similarity {Emb : Type}
    (embed : String → Except String Emb)
    (collection_query : Emb → Nat → Option Meta → Except String RawQueryOut)
    (query : String) (n_results : Nat) (filter_metadata : Option Meta)
    (emb : Emb) (raw : RawQueryOut)
    (hemb : embed query = .ok emb)
    (hcq : collection_query emb n_results filter_metadata = .ok raw) :
    ∀ j hit,
      (query_database embed collection_query query n_results
        filter_metadata).results.get? j = some hit →
      ∃ d, (raw.distances.headD []).get? j = some d ∧
        hit.similarity_score = 1 - d ∧
        (0 ≤ d → d ≤ 1 →
          0 ≤ hit.similarity_score ∧ hit.similarity_score ≤ 1) := by
  rw [query_database_cq_ok _ _ _ _ _ emb raw hemb hcq]
  intro j hit hj
  obtain ⟨d, hd, hsim⟩ := formatResults_similarity query raw j hit hj
  refine ⟨d, hd, hsim, fun h0 h1 => ?_⟩
  rw [hsim]
  constructor <;> linarith

/-- **C6, counterexample.**  With an index reporting distance `2`, the
single returned result has `similarity_score = 1 - 2 = -1`, which does not lie
in `[0, 1]`: the claim's interval clause is false as stated. -/
theorem query_database_similarity_counterexample :
    ((query_database (fun _ : String => (.ok () : Except String Unit))
        (fun _ _ _ => .ok ⟨[["doc"]], [[[]]], [[2]], [["id1"]]⟩)
        "q" 5 none).results.map (fun h => h.similarity_score)) = [1 - (2 : ℚ)] ∧
    ¬ (0 ≤ (1 : ℚ) - 2 ∧ (1 : ℚ) - 2 ≤ 1) := by
  refine ⟨rfl, ?_⟩
  intro h
  have := h.1
  norm_num at this

/-- Witness for C6's amended statement at distance `1/2`. -/
theorem query_database_similarity_witness :
    ∃ hit, (query_database (fun _ : String => (.ok () : Except String Unit))
        (fun _ _ _ => .ok ⟨[["doc"]], [[[]]], [[(1 : ℚ) / 2]], [["id1"]]⟩)
        "q" 5 none).results.get? 0 = some hit ∧
      hit.similarity_score = 1 - (1 : ℚ) / 2 ∧
      0 ≤ hit.similarity_score ∧ hit.similarity_score ≤ 1 := by
  obtain ⟨d, hd, hsim, hbound⟩ := query_database_similarity
    (fun _ : String => (.ok () : Except String Unit))
    (fun _ _ _ => .ok ⟨[["doc"]], [[[]]], [[(1 : ℚ) / 2]], [["id1"]]⟩)
    "q" 5 none () ⟨[["doc"]], [[[]]], [[(1 : ℚ) / 2]], [["id1"]]⟩ rfl rfl
    0 _ rfl
  have hd2 : d = (1 : ℚ) / 2 := by
    injection hd with h
    exact h.symm
  rw [hd2] at hbound
  exact ⟨_, rfl, rfl, hbound (by norm_num) (by norm_num)⟩

/-! ### Invalid task plans (claim C7) -/

/-- **C7, counterexample.**  `CosmoFlowAgent._step1_main_agent_analysis_sync`
does not raise on a task plan that is not valid JSON: it proceeds with the
hard-coded substitute plan of three search tasks. -/
theorem step1_json_error_substitutes_tasks :
    step1MainAgentAnalysis
        (.unparsable "Expecting value: line 1 column 1 (char 0)") "q"
      = .ok [⟨"SearchAgent1", "q"⟩, ⟨"SearchAgent2", "related to q"⟩,
             ⟨"SearchAgent3", "information about q"⟩] := rfl

/-- **C7, amended.**  The selective orchestrator raises `ValueError` on an
unparseable stored plan, on an empty plan, and on a plan none of whose entries
names a configured sub-agent; but `CosmoFlowAgent`'s step 1, on a JSON decode
error of the main-agent response, substitutes the default three-task search
plan instead of raising. -/
theorem invalid_plan_error_handling (err q : String) (names : List String)
    (plan : List Task) :
    runSelective (.unparsable err) names
      = .error (.valueError ("Invalid JSON in sub_agent_plan: " ++ err)) ∧
    runSelective (.parsed []) names
      = .error (.valueError "No valid sub-agent entries in plan.") ∧
    (plan ≠ [] → (∀ t ∈ plan, ¬ t.agent ∈ names) →
      runSelective (.parsed plan) names
        = .error (.valueError "No sub-agent matches the plan.")) ∧
    step1MainAgentAnalysis (.unparsable err) q = .ok (defaultSearchTasks q) := by
  refine ⟨rfl, rfl, ?_, rfl⟩
  intro hne hnone
  unfold runSelective
  dsimp only
  have hempty : plan.isEmpty = false := by
    cases h : plan with
    | nil => exact absurd h hne
    | cons a l => rfl
  rw [hempty, if_neg Bool.false_ne_true]
  have hsel : (names.filter (fun a => plan.any (fun t => t.agent == a))).isEmpty
      = true := by
    rw [List.isEmpty_iff, List.filter_eq_nil_iff]
    intro a ha hany
    rw [List.any_eq_true] at hany
    obtain ⟨t, ht, hbeq⟩ := hany
    have : t.agent = a := eq_of_beq hbeq
    exact hnone t ht (this ▸ ha)
  rw [if_pos hsel]

/-- Witness for C7's amended statement. -/
theorem invalid_plan_error_handling_witness :
    runSelective (.parsed [⟨"X", "q"⟩]) ["Agent1"]
      = .error (.valueError "No sub-agent matches the plan.") ∧
    runSelective (.unparsable "bad") ["Agent1"]
      = .error (.valueError "Invalid JSON in sub_agent_plan: bad") := by
  obtain ⟨h1, h2, h3, h4⟩ :=
    invalid_plan_error_handling "bad" "q" ["Agent1"] [⟨"X", "q"⟩]
  exact ⟨h3 (List.cons_ne_nil _ _) (by decide), h1⟩

/-! ### Empty credential pools (claim C8) -/

/-- **C8, counterexample.**  A draw from an empty `GeminiApiKeyManager` pool
fails with `ZeroDivisionError` (`agent_id % len(self.api_keys)`), not with the
Configuration `ValueError("No API keys available...")` the claim asserts. -/
theorem gemini_empty_pool_draw_not_config_error :
    (GeminiApiKeyManager.get_key_for_agent
        (⟨[], 0, fun _ => 0⟩ : GeminiApiKeyManager String) 0)
      = .error .zeroDivisionError ∧
    isConfigError
      (GeminiApiKeyManager.get_key_for_agent
        (⟨[], 0, fun _ => 0⟩ : GeminiApiKeyManager String) 0) = false :=
  ⟨rfl, rfl⟩

/-- **C8, amended.**  With an empty pool, both draws of `ApiKeyManager`
(src/agent/load_agent.py) fail with the Configuration error
`ValueError("No API keys available. Please check your config.env file.")`,
but the unguarded `GeminiApiKeyManager` (src/multi_agent/vlm/load_model.py)
fails with `ZeroDivisionError` (`get_key_for_agent`) or `IndexError`
(`get_next_key`) instead. -/
theorem empty_pool_draw_behaviour (st1 : ApiKeyManager) {κ : Type}
    [DecidableEq κ] (st2 : GeminiApiKeyManager κ) (agent_id : Nat)
    (h1 : st1.api_keys = []) (h2 : st2.api_keys = []) :
    st1.get_next_key = .error (.valueError
      "No API keys available. Please check your config.env file.") ∧
    st1.get_key_for_agent agent_id = .error (.valueError
      "No API keys available. Please check your config.env file.") ∧
    st2.get_key_for_agent agent_id = .error .zeroDivisionError ∧
    st2.get_next_key = .error .indexError := by
  refine ⟨?_, ?_, ?_, ?_⟩
  · unfold ApiKeyManager.get_next_key
    rw [h1]
    rfl
  · unfold ApiKeyManager.get_key_for_agent
    rw [h1]
    rfl
  · unfold GeminiApiKeyManager.get_key_for_agent
    rw [h2]
    rfl
  · unfold GeminiApiKeyManager.get_next_key
    rw [h2]
    rfl

/-- Witness for C8's amended statement at concrete empty pools. -/
theorem empty_pool_draw_behaviour_witness :
    (⟨[], 0, fun _ => 0⟩ : ApiKeyManager).get_next_key
      = .error (.valueError
        "No API keys available. Please check your config.env file.") ∧
    (⟨[], 0, fun _ => 0⟩ : GeminiApiKeyManager String).get_next_key
      = .error .indexError := by
  obtain ⟨h1, h2, h3, h4⟩ := empty_pool_draw_behaviour
    (⟨[], 0, fun _ => 0⟩ : ApiKeyManager)
    (⟨[], 0, fun _ => 0⟩ : GeminiApiKeyManager String) 0 rfl rfl
  exact ⟨h1, h4⟩

/-! ### PDF merge natural ordering (claim C9) -/

/-- **C9.**  The PDF merge utility orders the collected PNG filenames by the
natural key (a permutation of the input sorted under the key order, which
splits each stem into alternating text/number tokens and compares numeric
tokens numerically, so `page2.png` precedes `page10.png` and
`page1.png, page2.png, page10.png` is the sorted order of that set), and
fails with `FileNotFoundError` when the folder holds no PNG files. -/
theorem merge_pdf_natural_order (png_files : List (List Char)) :
    (png_files = [] →
      mergePdfPngs png_files
        = .error (.fileNotFoundError "Không tìm thấy ảnh PNG.")) ∧
    (∀ out, mergePdfPngs png_files = .ok out →
      out.Perm png_files ∧ out.Sorted naturalKeyLe) ∧
    natural_key "page2.png".data < natural_key "page10.png".data ∧
    mergePdfPngs ["page2.png".data, "page10.png".data, "page1.png".data]
      = .ok ["page1.png".data, "page2.png".data, "page10.png".data] := by
  refine ⟨?_, ?_, by decide, by decide⟩
  · intro h
    subst h
    rfl
  · intro out hout
    unfold mergePdfPngs at hout
    by_cases hs : (List.insertionSort naturalKeyLe png_files).isEmpty
    · rw [if_pos hs] at hout
      cases hout
    · rw [if_neg hs] at hout
      cases hout
      exact ⟨List.perm_insertionSort naturalKeyLe png_files,
        List.sorted_insertionSort naturalKeyLe png_files⟩

/-- Witness for C9 at the empty folder and the three-page example. -/
theorem merge_pdf_natural_order_witness :
    mergePdfPngs [] = .error (.fileNotFoundError "Không tìm thấy ảnh PNG.") ∧
    (["page1.png".data, "page2.png".data, "page10.png".data]).Perm
        ["page2.png".data, "page10.png".data, "page1.png".data] ∧
    (["page1.png".data, "page2.png".data,
      "page10.png".data]).Sorted naturalKeyLe := by
  obtain ⟨h1, -, -, -⟩ := merge_pdf_natural_order []
  obtain ⟨-, h2, -, h4⟩ := merge_pdf_natural_order
    ["page2.png".data, "page10.png".data, "page1.png".data]
  exact ⟨h1 rfl, (h2 _ h4).1, (h2 _ h4).2⟩

end MultiAgentCSM






